import Mathlib

/-!
Shallow embedding of the TimePRO MCP adapter (TypeScript sources, third
server variant together with the shared TimeProClient HTTP wrapper).

Numbers are modelled as rationals: every arithmetic operation performed by
the source on these values (sums, differences, division by 60) is exact.
Remote interaction is modelled by an environment of responses plus a trace
of issued remote calls, so that statements about which remote requests a
handler performs are expressible.  JSON pretty-printing of success payloads
is abstracted into a constructor carrying the rendered values.
-/

namespace TimePro

/-- Splitting a character list at every occurrence of a separator; the
executable core of the split calls of the source (all separators used
there are single characters). -/
def splitChar (sep : Char) : List Char → List (List Char)
  | [] => [[]]
  | c :: rest =>
    if c = sep then [] :: splitChar sep rest
    else
      match splitChar sep rest with
      | [] => [[c]]
      | p :: ps => (c :: p) :: ps

/-- Numeric value of one decimal digit character. -/
def charDigit (c : Char) : Nat := c.toNat - 48

/-- Whether every character of the component is a decimal digit. -/
def isDigitList (l : List Char) : Bool := l.all fun c => c.isDigit

/-- Decimal value of a digit list. -/
def natFromChars (l : List Char) : Nat := l.foldl (fun acc c => acc * 10 + charDigit c) 0

/-- Numeric conversion of one split component, as the Number cast of the
source applied to a digit string (the empty string converts to zero). -/
def numComponent (l : List Char) : ℚ :=
  if isDigitList l = true then (natFromChars l : ℚ) else 0

/-- Minutes-of-day of an HH:MM or HH:MM:SS clock string.  Models the
source sequence
const [h, m] = s.split(":").map(Number); h * 60 + m
for strings whose first two colon-separated components are numeric. -/
def clockMinutes (s : String) : ℚ :=
  match splitChar ':' s.data with
  | h :: m :: _ => numComponent h * 60 + numComponent m
  | _ => 0

/-- Prefix of a string, as the substring call of the source counted in
characters. -/
def strTake (s : String) (n : Nat) : String := String.mk (s.data.take n)

/-- First segment of a string split at a separator character, as the
source expression s.split(sep)[0]. -/
def headSplit (s : String) (sep : Char) : String :=
  String.mk ((splitChar sep s.data).headD [])

/-- Result pair of the calculateHours helper. -/
structure HoursPair where
  total : ℚ
  billable : ℚ
deriving DecidableEq

/-- Direct translation of the helper calculateHours of the server source:
worked minutes are end minus start minus break, total is worked divided by
sixty, and the billable component repeats the total. -/
def calculateHours (startTime endTime : String) (breakMinutes : ℚ) : HoursPair :=
  let startMinutes := clockMinutes startTime
  let endMinutes := clockMinutes endTime
  let workedMinutes := endMinutes - startMinutes - breakMinutes
  let total := workedMinutes / 60
  { total := total, billable := total }

/-- Translation of formatDateTime: append seconds when the time has only
two components, then join date and time with a T. -/
def formatDateTime (date time : String) : String :=
  let timeParts := splitChar ':' time.data
  let formattedTime := if timeParts.length = 3 then time else time ++ ":00"
  date ++ "T" ++ formattedTime

/-- Rendering of a number into a message string; stands for the numeric
interpolation of the source template literals. -/
def numStr (q : ℚ) : String := toString q

/-- DTO submitted to SaveTimesheet, from the types module of the variant
(TimeID, TimeStart and TimeEnd as combined datetimes, TimeLess in hours). -/
structure TimesheetDto where
  TimeID : Option Int := none
  EmpID : String
  ClientID : String
  ProjectID : String
  CategoryID : String
  LocationID : String
  BillableID : Option String := none
  DateCreated : String
  TimeStart : String
  TimeEnd : String
  TimeLess : ℚ
  TimeTotal : ℚ
  TimeBillable : ℚ
  SellPrice : ℚ
  SalesTaxPct : ℚ
  Notes : Option String := none
deriving DecidableEq

/-- Fields of the read-back record (GetEditTimesheetsView) that the
handlers consult: times as HH:MM:SS strings, TimeLess in minutes. -/
structure TimesheetDetails where
  TimesheetID : Int
  EmpID : String
  ClientID : String
  ClientName : String
  ProjectID : String
  CategoryID : String
  LocationID : String
  BillableID : String
  DateCreated : String
  StartTime : String
  EndTime : String
  TimeLess : ℚ
  TimeTotal : ℚ
  TimeBillable : ℚ
  SellPrice : ℚ
  SalesTaxPct : ℚ
  Note : String
deriving DecidableEq

/-- Response of GetClientRate. -/
structure ClientRate where
  EmpID : String
  ClientID : String
  Rate : ℚ
  PrepaidRate : ℚ
  ClientRateID : Int
  ExpiryDate : String
deriving DecidableEq

/-- One remote HTTP request issued through the TimeProClient, with the
data that determines the request. -/
inductive RemoteCall where
  | getEmployeeId
  | searchClients (searchText : String)
  | getProjectsForClient (clientId : String)
  | getCategories
  | getLocations
  | getAddTimesheetsView (empId date : String)
  | getClientRate (empId clientId : String)
  | listSummary (empId startDate endDate : String)
  | getTimesheet (timesheetId : Int)
  | createTimesheet (dto : TimesheetDto)
  | updateTimesheet (dto : TimesheetDto)
  | deleteTimesheet (timesheetId : Int)
deriving DecidableEq

/-- Mutable state of the TimeProClient instance: the memoised employee id,
null before the first successful resolution. -/
structure ClientState where
  employeeId : Option String
deriving DecidableEq

/-- Client state at process start. -/
def ClientState.fresh : ClientState := { employeeId := none }

/-- Error raised inside a handler: a McpError carrying a protocol code, or
an ordinary thrown Error (as produced by the transport wrapper) carrying
its message. -/
inductive HandlerError where
  | mcpError (code : String) (message : String)
  | thrown (message : String)
deriving DecidableEq

/-- Protocol code InvalidParams. -/
def invalidParams : String := "InvalidParams"

/-- Protocol code MethodNotFound. -/
def methodNotFound : String := "MethodNotFound"

/-- Handler computation: transforms the client state, produces a value or
an error, and records the list of remote calls issued, in order. -/
def HandlerM (α : Type) : Type :=
  ClientState → Except HandlerError α × ClientState × List RemoteCall

/-- Return a value, touching nothing. -/
def HandlerM.pure {α : Type} (a : α) : HandlerM α :=
  fun st => (Except.ok a, st, [])

/-- Sequence two handler steps; the trace accumulates, and an error stops
the continuation (an await that throws aborts the handler body). -/
def HandlerM.bind {α β : Type} (x : HandlerM α) (f : α → HandlerM β) : HandlerM β :=
  fun st =>
    match x st with
    | (Except.ok a, st1, t1) =>
      match f a st1 with
      | (r, st2, t2) => (r, st2, t1 ++ t2)
    | (Except.error e, st1, t1) => (Except.error e, st1, t1)

instance : Monad HandlerM where
  pure := HandlerM.pure
  bind := HandlerM.bind

/-- Throw a McpError or transport error from a handler. -/
def throwH {α : Type} (e : HandlerError) : HandlerM α :=
  fun st => (Except.error e, st, [])

/-- Issue one remote request: the call is recorded unconditionally, and the
provided response either yields the value or throws. -/
def callRemote {α : Type} (c : RemoteCall) (resp : Except String α) : HandlerM α :=
  fun st =>
    (match resp with
     | Except.ok v => Except.ok v
     | Except.error m => Except.error (HandlerError.thrown m), st, [c])

/-- Environment of remote responses: what each endpoint would answer.
Payloads of the pass-through read endpoints are kept as opaque strings.
An error value models a request whose fetch threw. -/
structure RemoteEnv where
  employeeIdResp : Except String String
  searchClientsResp : String → Except String String
  projectsResp : String → Except String String
  categoriesResp : Except String String
  locationsResp : Except String String
  defaultsResp : String → String → Except String String
  clientRateResp : String → String → Except String ClientRate
  summaryResp : String → String → String → Except String String
  getTimesheetResp : Int → Except String TimesheetDetails
  createResp : TimesheetDto → Except String TimesheetDetails
  updateResp : TimesheetDto → Except String Unit
  deleteResp : Int → Except String Unit

/-- Translation of TimeProClient.getEmployeeId: answer from the memo when
present, otherwise fetch GetEmployeeID once and store the result. -/
def getEmployeeIdM (env : RemoteEnv) : HandlerM String :=
  fun st =>
    match st.employeeId with
    | some e => (Except.ok e, st, [])
    | none =>
      match env.employeeIdResp with
      | Except.ok e =>
        (Except.ok e, { employeeId := some e }, [RemoteCall.getEmployeeId])
      | Except.error m =>
        (Except.error (HandlerError.thrown m), st, [RemoteCall.getEmployeeId])

/-- Translation of TimeProClient.getClientRate: resolve the employee id
first, then fetch GetClientRate for that employee and client. -/
def getClientRateM (env : RemoteEnv) (clientId : String) : HandlerM ClientRate :=
  HandlerM.bind (getEmployeeIdM env) (fun empId =>
    callRemote (RemoteCall.getClientRate empId clientId) (env.clientRateResp empId clientId))

/-- Translation of TimeProClient.getTimesheetDefaults. -/
def getTimesheetDefaultsM (env : RemoteEnv) (date : String) : HandlerM String :=
  HandlerM.bind (getEmployeeIdM env) (fun empId =>
    callRemote (RemoteCall.getAddTimesheetsView empId date) (env.defaultsResp empId date))

/-- Translation of TimeProClient.listTimesheets. -/
def listTimesheetsM (env : RemoteEnv) (startDate endDate : String) : HandlerM String :=
  HandlerM.bind (getEmployeeIdM env) (fun empId =>
    callRemote (RemoteCall.listSummary empId startDate endDate)
      (env.summaryResp empId startDate endDate))

/-- Arguments bag of a tool call: each named argument may be absent. -/
structure ToolArgs where
  search_text : Option String := none
  client_id : Option String := none
  project_id : Option String := none
  category_id : Option String := none
  date : Option String := none
  start_date : Option String := none
  end_date : Option String := none
  start_time : Option String := none
  end_time : Option String := none
  break_minutes : Option ℚ := none
  location_id : Option String := none
  billable_id : Option String := none
  note : Option String := none
  timesheet_id : Option Int := none
deriving DecidableEq

/-- Reading a string argument with a cast: a missing value and the empty
string are both falsy in the source truthiness tests, so an absent
argument collapses to the empty string wherever only truthiness and the
resulting value matter. -/
def strArg (o : Option String) : String := o.getD ""

/-- Reading a numeric id argument: absent behaves as zero under the
source truthiness test on numbers. -/
def intArg (o : Option Int) : Int := o.getD 0

/-- The or-with-default merge of the update handler for string fields:
a present, non-empty override wins, anything falsy falls back. -/
def mergeStr (o : Option String) (d : String) : String :=
  match o with
  | some s => if s = "" then d else s
  | none => d

/-- Success payload of one tool invocation (the JSON rendering of the
source is abstracted into the values it would print). -/
inductive ToolOutput where
  | text (payload : String)
  | record (t : TimesheetDetails)
  | created (result : TimesheetDetails)
  | updated (timesheetId : Int)
  | deleted (timesheetId : Int)
deriving DecidableEq

/-- Handler for list_clients. -/
def list_clients (env : RemoteEnv) (args : ToolArgs) : HandlerM ToolOutput :=
  let searchText := mergeStr args.search_text ""
  HandlerM.bind (callRemote (RemoteCall.searchClients searchText) (env.searchClientsResp searchText))
    (fun clients => HandlerM.pure (ToolOutput.text clients))

/-- Handler for list_projects. -/
def list_projects (env : RemoteEnv) (args : ToolArgs) : HandlerM ToolOutput :=
  let clientId := strArg args.client_id
  if clientId = "" then
    throwH (HandlerError.mcpError invalidParams "client_id is required")
  else
    HandlerM.bind (callRemote (RemoteCall.getProjectsForClient clientId) (env.projectsResp clientId))
      (fun projects => HandlerM.pure (ToolOutput.text projects))

/-- Handler for list_categories. -/
def list_categories (env : RemoteEnv) : HandlerM ToolOutput :=
  HandlerM.bind (callRemote RemoteCall.getCategories env.categoriesResp)
    (fun categories => HandlerM.pure (ToolOutput.text categories))

/-- Handler for list_locations. -/
def list_locations (env : RemoteEnv) : HandlerM ToolOutput :=
  HandlerM.bind (callRemote RemoteCall.getLocations env.locationsResp)
    (fun locations => HandlerM.pure (ToolOutput.text locations))

/-- Handler for get_timesheet_defaults. -/
def get_timesheet_defaults (env : RemoteEnv) (args : ToolArgs) : HandlerM ToolOutput :=
  let date := strArg args.date
  if date = "" then
    throwH (HandlerError.mcpError invalidParams "date is required")
  else
    HandlerM.bind (getTimesheetDefaultsM env date)
      (fun defaults => HandlerM.pure (ToolOutput.text defaults))

/-- Handler for list_timesheets. -/
def list_timesheets (env : RemoteEnv) (args : ToolArgs) : HandlerM ToolOutput :=
  let startDate := strArg args.start_date
  let endDate := strArg args.end_date
  if startDate = "" ∨ endDate = "" then
    throwH (HandlerError.mcpError invalidParams "start_date and end_date are required")
  else
    HandlerM.bind (listTimesheetsM env startDate endDate)
      (fun timesheets => HandlerM.pure (ToolOutput.text timesheets))

/-- Handler for get_timesheet. -/
def get_timesheet (env : RemoteEnv) (args : ToolArgs) : HandlerM ToolOutput :=
  let timesheetId := intArg args.timesheet_id
  if timesheetId = 0 then
    throwH (HandlerError.mcpError invalidParams "timesheet_id is required")
  else
    HandlerM.bind (callRemote (RemoteCall.getTimesheet timesheetId) (env.getTimesheetResp timesheetId))
      (fun timesheet => HandlerM.pure (ToolOutput.record timesheet))

/-- Message of the missing-argument rejection of create_timesheet. -/
def createRequiredMsg : String :=
  "client_id, project_id, category_id, date, start_time, end_time, and location_id are all required"

/-- Message of the invalid-time-range rejection of create_timesheet,
assembled exactly as the source template literal. -/
def invalidRangeMsg (breakMinutes : ℚ) (startTime endTime : String) (total : ℚ) : String :=
  "Invalid time range: break_minutes (" ++ numStr breakMinutes ++
  ") exceeds or equals total work time. " ++
  "Start: " ++ startTime ++ ", End: " ++ endTime ++
  ", Total hours: " ++ numStr (total + breakMinutes / 60) ++
  ", Break: " ++ numStr (breakMinutes / 60) ++ " hours. " ++
  "Billable hours must be positive."

/-- DTO assembled by the create handler once validation has passed, as a
function of the arguments, the resolved employee id and the looked-up
rate: break converted from minutes to hours, total set to the billable
value plus the break hours, and a fixed ten percent sales tax. -/
def createDto (args : ToolArgs) (empId : String) (sellPrice : ℚ) : TimesheetDto :=
  let date := strArg args.date
  let startTime := strArg args.start_time
  let endTime := strArg args.end_time
  let breakMinutes := (args.break_minutes).getD 0
  let hours := calculateHours startTime endTime breakMinutes
  let breakHours := breakMinutes / 60
  { EmpID := empId
    ClientID := strArg args.client_id
    ProjectID := strArg args.project_id
    CategoryID := strArg args.category_id
    LocationID := strArg args.location_id
    BillableID := args.billable_id
    DateCreated := date
    TimeStart := formatDateTime date startTime
    TimeEnd := formatDateTime date endTime
    TimeLess := breakHours
    TimeTotal := hours.total + breakHours
    TimeBillable := hours.billable
    SellPrice := sellPrice
    SalesTaxPct := 1 / 10
    Notes := args.note }

/-- Handler for create_timesheet: required-argument check, then employee
id resolution, hour computation, positivity validation, rate lookup, and
submission of the assembled DTO. -/
def create_timesheet (env : RemoteEnv) (args : ToolArgs) : HandlerM ToolOutput :=
  let clientId := strArg args.client_id
  let startTime := strArg args.start_time
  let endTime := strArg args.end_time
  let breakMinutes := (args.break_minutes).getD 0
  if clientId = "" ∨ strArg args.project_id = "" ∨ strArg args.category_id = "" ∨
      strArg args.date = "" ∨ startTime = "" ∨ endTime = "" ∨
      strArg args.location_id = "" then
    throwH (HandlerError.mcpError invalidParams createRequiredMsg)
  else
    HandlerM.bind (getEmployeeIdM env) (fun empId =>
      let hours := calculateHours startTime endTime breakMinutes
      if hours.billable ≤ 0 then
        throwH (HandlerError.mcpError invalidParams
          (invalidRangeMsg breakMinutes startTime endTime hours.total))
      else
        HandlerM.bind (getClientRateM env clientId) (fun rateInfo =>
          let timesheet := createDto args empId rateInfo.Rate
          HandlerM.bind (callRemote (RemoteCall.createTimesheet timesheet) (env.createResp timesheet))
            (fun result => HandlerM.pure (ToolOutput.created result))))

/-- Merged date of the update handler: a truthy override wins, else the
date part of the stored DateCreated. -/
def mergedDate (args : ToolArgs) (existing : TimesheetDetails) : String :=
  mergeStr args.date (headSplit existing.DateCreated 'T')

/-- Merged start time of the update handler: a truthy override wins, else
the first five characters of the stored StartTime. -/
def mergedStart (args : ToolArgs) (existing : TimesheetDetails) : String :=
  mergeStr args.start_time (strTake existing.StartTime 5)

/-- Merged end time of the update handler. -/
def mergedEnd (args : ToolArgs) (existing : TimesheetDetails) : String :=
  mergeStr args.end_time (strTake existing.EndTime 5)

/-- Merged break of the update handler: explicit presence wins, an absent
key keeps the stored TimeLess (minutes on the read path). -/
def mergedBreak (args : ToolArgs) (existing : TimesheetDetails) : ℚ :=
  (args.break_minutes).getD existing.TimeLess

/-- DTO assembled by the update handler: overrides merged over the fetched
record by the or-fallback for string fields and by explicit presence for
break and note, hours recomputed from the merged times, sell price carried
from the existing record, sales tax carried unless falsy. -/
def updateDto (args : ToolArgs) (existing : TimesheetDetails) (timesheetId : Int)
    (empId : String) : TimesheetDto :=
  let date := mergedDate args existing
  let startTime := mergedStart args existing
  let endTime := mergedEnd args existing
  let breakMinutes := mergedBreak args existing
  let hours := calculateHours startTime endTime breakMinutes
  let breakHours := breakMinutes / 60
  { TimeID := some timesheetId
    EmpID := empId
    ClientID := mergeStr args.client_id existing.ClientID
    ProjectID := mergeStr args.project_id existing.ProjectID
    CategoryID := mergeStr args.category_id existing.CategoryID
    LocationID := mergeStr args.location_id existing.LocationID
    BillableID := some (mergeStr args.billable_id existing.BillableID)
    DateCreated := date
    TimeStart := formatDateTime date startTime
    TimeEnd := formatDateTime date endTime
    TimeLess := breakHours
    TimeTotal := hours.total + breakHours
    TimeBillable := hours.billable
    SellPrice := existing.SellPrice
    SalesTaxPct := if existing.SalesTaxPct = 0 then 1 / 10 else existing.SalesTaxPct
    Notes := some ((args.note).getD existing.Note) }

/-- Handler for update_timesheet: fetch the existing record, merge the
overrides field by field, recompute the hours, and submit the full DTO.
The source performs no billable-positivity validation on this path. -/
def update_timesheet (env : RemoteEnv) (args : ToolArgs) : HandlerM ToolOutput :=
  let timesheetId := intArg args.timesheet_id
  if timesheetId = 0 then
    throwH (HandlerError.mcpError invalidParams "timesheet_id is required")
  else
    HandlerM.bind (callRemote (RemoteCall.getTimesheet timesheetId) (env.getTimesheetResp timesheetId))
      (fun existing =>
        HandlerM.bind (getEmployeeIdM env) (fun empId =>
          let timesheet := updateDto args existing timesheetId empId
          HandlerM.bind (callRemote (RemoteCall.updateTimesheet timesheet) (env.updateResp timesheet))
            (fun _ => HandlerM.pure (ToolOutput.updated timesheetId))))

/-- Handler for delete_timesheet. -/
def delete_timesheet (env : RemoteEnv) (args : ToolArgs) : HandlerM ToolOutput :=
  let timesheetId := intArg args.timesheet_id
  if timesheetId = 0 then
    throwH (HandlerError.mcpError invalidParams "timesheet_id is required")
  else
    HandlerM.bind (callRemote (RemoteCall.deleteTimesheet timesheetId) (env.deleteResp timesheetId))
      (fun _ => HandlerM.pure (ToolOutput.deleted timesheetId))

/-- Dispatch of the call-tool request over the tool name, as the switch
statement of the source. -/
def dispatch (env : RemoteEnv) (name : String) (args : ToolArgs) : HandlerM ToolOutput :=
  if name = "list_clients" then list_clients env args
  else if name = "list_projects" then list_projects env args
  else if name = "list_categories" then list_categories env
  else if name = "list_locations" then list_locations env
  else if name = "get_timesheet_defaults" then get_timesheet_defaults env args
  else if name = "list_timesheets" then list_timesheets env args
  else if name = "get_timesheet" then get_timesheet env args
  else if name = "create_timesheet" then create_timesheet env args
  else if name = "update_timesheet" then update_timesheet env args
  else if name = "delete_timesheet" then delete_timesheet env args
  else throwH (HandlerError.mcpError methodNotFound ("Unknown tool: " ++ name))

/-- Outcome delivered for one tool call: a success payload, a failed tool
result with isError set (the catch branch for ordinary thrown errors), or
a McpError rethrown to the protocol layer. -/
inductive CallResult where
  | success (out : ToolOutput)
  | failed (errorMessage : String)
  | protocolError (code : String) (message : String)
deriving DecidableEq

/-- Whole call-tool request handler including the surrounding catch: a
McpError propagates, any other thrown error becomes a failed tool result
instead of crashing the process. -/
def handleToolCall (env : RemoteEnv) (name : String) (args : ToolArgs)
    (st : ClientState) : CallResult × ClientState × List RemoteCall :=
  match dispatch env name args st with
  | (Except.ok out, st1, t) => (CallResult.success out, st1, t)
  | (Except.error (HandlerError.mcpError c m), st1, t) => (CallResult.protocolError c m, st1, t)
  | (Except.error (HandlerError.thrown m), st1, t) => (CallResult.failed m, st1, t)

/-- First SaveTimesheet payload occurring in a trace, whether from the
create or the update endpoint. -/
def submittedDto : List RemoteCall → Option TimesheetDto
  | [] => none
  | RemoteCall.createTimesheet d :: _ => some d
  | RemoteCall.updateTimesheet d :: _ => some d
  | _ :: rest => submittedDto rest

/-- Whether a remote call is the rate lookup. -/
def isRateLookup : RemoteCall → Bool
  | RemoteCall.getClientRate _ _ => true
  | _ => false

/-- Whether a remote call is the create submission. -/
def isCreateCall : RemoteCall → Bool
  | RemoteCall.createTimesheet _ => true
  | _ => false

/-- Whether a remote call is the update submission. -/
def isUpdateCall : RemoteCall → Bool
  | RemoteCall.updateTimesheet _ => true
  | _ => false

/-- A handler computation that never issues the rate lookup, from any
client state. -/
def rateFree {α : Type} (x : HandlerM α) : Prop :=
  ∀ st c, c ∈ (x st).2.2 → isRateLookup c = false

/-- One HTTP response as seen by the transport wrapper. -/
structure HttpResponse where
  ok : Bool
  status : Nat
  statusText : String
  body : String
deriving DecidableEq

/-- Value produced by a successful fetch: the parsed body, or the empty
structure substituted for an empty body. -/
inductive FetchResult where
  | parsed (body : String)
  | emptyStructure
deriving DecidableEq

/-- Translation of TimeProClient.fetch on one received response: a non-ok
response throws an error message carrying the numeric status and the body
text (or the status text when the body is empty); an ok response with an
empty body yields the empty structure; otherwise the body is parsed. -/
def fetchModel (resp : HttpResponse) : Except String FetchResult :=
  if resp.ok = false then
    Except.error ("TimePRO API error (" ++ toString resp.status ++ "): " ++
      (if resp.body = "" then resp.statusText else resp.body))
  else if resp.body = "" then
    Except.ok FetchResult.emptyStructure
  else
    Except.ok (FetchResult.parsed resp.body)

/-- Sequence of n invocations of getEmployeeId on the shared client,
collecting the returned ids; models repeated tool calls within one
process lifetime. -/
def employeeIdCalls (env : RemoteEnv) : Nat → HandlerM (List String)
  | 0 => HandlerM.pure []
  | n + 1 =>
    HandlerM.bind (getEmployeeIdM env) (fun e =>
      HandlerM.bind (employeeIdCalls env n) (fun rest =>
        HandlerM.pure (e :: rest)))

/-- Concrete stored record used to instantiate the general theorems. -/
def sampleExisting : TimesheetDetails :=
  { TimesheetID := 5
    EmpID := "E1"
    ClientID := "C1"
    ClientName := "Client One"
    ProjectID := "P1"
    CategoryID := "K1"
    LocationID := "L1"
    BillableID := "B1"
    DateCreated := "2025-01-02T00:00:00"
    StartTime := "09:00:00"
    EndTime := "17:00:00"
    TimeLess := 30
    TimeTotal := 8
    TimeBillable := 15 / 2
    SellPrice := 250
    SalesTaxPct := 1 / 10
    Note := "old note" }

/-- Concrete rate response used to instantiate the general theorems. -/
def sampleRate : ClientRate :=
  { EmpID := "E1"
    ClientID := "C1"
    Rate := 250
    PrepaidRate := 0
    ClientRateID := 7
    ExpiryDate := "2030-01-01" }

/-- Environment in which every remote endpoint answers successfully. -/
def sampleEnv : RemoteEnv :=
  { employeeIdResp := Except.ok "E1"
    searchClientsResp := fun _ => Except.ok "clients"
    projectsResp := fun _ => Except.ok "projects"
    categoriesResp := Except.ok "categories"
    locationsResp := Except.ok "locations"
    defaultsResp := fun _ _ => Except.ok "defaults"
    clientRateResp := fun _ _ => Except.ok sampleRate
    summaryResp := fun _ _ _ => Except.ok "summary"
    getTimesheetResp := fun _ => Except.ok sampleExisting
    createResp := fun _ => Except.ok sampleExisting
    updateResp := fun _ => Except.ok ()
    deleteResp := fun _ => Except.ok () }

/-- Environment whose create endpoint fails with a transport error. -/
def sampleErrEnv : RemoteEnv :=
  { sampleEnv with
    createResp := fun _ =>
      Except.error ("TimePRO API error (" ++ toString (500 : Nat) ++ "): " ++ "boom") }

/-- Valid create arguments: nine to eighteen with a one hour break. -/
def createArgsOk : ToolArgs :=
  { client_id := some "C1"
    project_id := some "P1"
    category_id := some "K1"
    date := some "2025-01-02"
    start_time := some "09:00"
    end_time := some "18:00"
    break_minutes := some 60
    location_id := some "L1" }

/-- Create arguments whose break consumes the whole elapsed hour. -/
def createArgsDegenerate : ToolArgs :=
  { client_id := some "C1"
    project_id := some "P1"
    category_id := some "K1"
    date := some "2025-01-02"
    start_time := some "09:00"
    end_time := some "10:00"
    break_minutes := some 60
    location_id := some "L1" }

/-- Update arguments whose merged break consumes the whole elapsed hour. -/
def updateArgsDegenerate : ToolArgs :=
  { timesheet_id := some 5
    start_time := some "09:00"
    end_time := some "10:00"
    break_minutes := some 60 }

/-- Update arguments carrying an explicit empty-string note override. -/
def updateArgsClearNote : ToolArgs :=
  { timesheet_id := some 5
    note := some "" }

/-- Update arguments carrying an explicit empty-string client override. -/
def updateArgsEmptyClient : ToolArgs :=
  { timesheet_id := some 5
    client_id := some "" }

/-- Update arguments with no override at all beyond the record id. -/
def updateArgsEmpty : ToolArgs :=
  { timesheet_id := some 5 }

/-!
General lemmas about the embedded client and handlers, shared by the
claim theorems below.
-/

/-- A memoised id is answered from the cache with no remote call. -/
theorem getEmployeeIdM_cached (env : RemoteEnv) (st : ClientState) (e : String)
    (h : st.employeeId = some e) :
    getEmployeeIdM env st = (Except.ok e, st, []) := by
  unfold getEmployeeIdM
  rw [h]

/-- From an empty cache, a successful resolution issues one remote call
and stores the result. -/
theorem getEmployeeIdM_fresh (env : RemoteEnv) (st : ClientState) (e : String)
    (h : st.employeeId = none) (henv : env.employeeIdResp = Except.ok e) :
    getEmployeeIdM env st =
      (Except.ok e, { employeeId := some e }, [RemoteCall.getEmployeeId]) := by
  unfold getEmployeeIdM
  rw [h, henv]

/-- After a successful resolution the returned id is cached. -/
theorem getEmployeeIdM_ok_state (env : RemoteEnv) (st st2 : ClientState) (e : String)
    (tr : List RemoteCall) (h : getEmployeeIdM env st = (Except.ok e, st2, tr)) :
    st2.employeeId = some e := by
  unfold getEmployeeIdM at h
  cases hst : st.employeeId with
  | some e0 =>
    rw [hst] at h
    cases h
    exact hst
  | none =>
    rw [hst] at h
    cases henv : env.employeeIdResp with
    | ok e1 => rw [henv] at h; cases h; rfl
    | error m => rw [henv] at h; cases h

/-- The identity resolution only ever issues the identity request. -/
theorem getEmployeeIdM_trace (env : RemoteEnv) (st : ClientState) (c : RemoteCall)
    (h : c ∈ (getEmployeeIdM env st).2.2) : c = RemoteCall.getEmployeeId := by
  unfold getEmployeeIdM at h
  cases hst : st.employeeId with
  | some e0 => rw [hst] at h; simp at h
  | none =>
    rw [hst] at h
    cases henv : env.employeeIdResp with
    | ok e1 => rw [henv] at h; simp at h; exact h
    | error m => rw [henv] at h; simp at h; exact h

/-- The identity resolution trace is empty or the single identity call. -/
theorem getEmployeeIdM_trace_shape (env : RemoteEnv) (st : ClientState) :
    (getEmployeeIdM env st).2.2 = [] ∨
      (getEmployeeIdM env st).2.2 = [RemoteCall.getEmployeeId] := by
  unfold getEmployeeIdM
  cases hst : st.employeeId with
  | some e0 => left; rfl
  | none =>
    cases henv : env.employeeIdResp with
    | ok e1 => right; rfl
    | error m => right; rfl

/-- Run of create_timesheet when a required argument is falsy: immediate
protocol error, unchanged state, no remote call. -/
theorem create_missing_run (env : RemoteEnv) (args : ToolArgs) (st : ClientState)
    (h : strArg args.client_id = "" ∨ strArg args.project_id = "" ∨
      strArg args.category_id = "" ∨ strArg args.date = "" ∨
      strArg args.start_time = "" ∨ strArg args.end_time = "" ∨
      strArg args.location_id = "") :
    create_timesheet env args st =
      (Except.error (HandlerError.mcpError invalidParams createRequiredMsg), st, []) := by
  unfold create_timesheet
  rw [if_pos h]
  rfl

/-- Run of create_timesheet when the computed billable is nonpositive:
the invalid-range protocol error, after the identity resolution only. -/
theorem create_invalid_run (env : RemoteEnv) (args : ToolArgs) (st st2 : ClientState)
    (emp : String) (tr : List RemoteCall)
    (hreq : ¬ (strArg args.client_id = "" ∨ strArg args.project_id = "" ∨
      strArg args.category_id = "" ∨ strArg args.date = "" ∨
      strArg args.start_time = "" ∨ strArg args.end_time = "" ∨
      strArg args.location_id = ""))
    (hemp : getEmployeeIdM env st = (Except.ok emp, st2, tr))
    (hneg : (calculateHours (strArg args.start_time) (strArg args.end_time)
      ((args.break_minutes).getD 0)).billable ≤ 0) :
    create_timesheet env args st =
      (Except.error (HandlerError.mcpError invalidParams
        (invalidRangeMsg ((args.break_minutes).getD 0) (strArg args.start_time)
          (strArg args.end_time)
          (calculateHours (strArg args.start_time) (strArg args.end_time)
            ((args.break_minutes).getD 0)).total)),
       st2, tr) := by
  unfold create_timesheet HandlerM.bind
  rw [if_neg hreq, hemp]
  simp only []
  rw [if_pos hneg]
  simp [throwH]

/-- Run of create_timesheet past both validations: the rate is looked up
and the assembled DTO is submitted once, whatever the submission answers. -/
theorem create_ok_run (env : RemoteEnv) (args : ToolArgs) (st st2 : ClientState)
    (emp : String) (tr : List RemoteCall) (rate : ClientRate)
    (hreq : ¬ (strArg args.client_id = "" ∨ strArg args.project_id = "" ∨
      strArg args.category_id = "" ∨ strArg args.date = "" ∨
      strArg args.start_time = "" ∨ strArg args.end_time = "" ∨
      strArg args.location_id = ""))
    (hemp : getEmployeeIdM env st = (Except.ok emp, st2, tr))
    (hpos : ¬ (calculateHours (strArg args.start_time) (strArg args.end_time)
      ((args.break_minutes).getD 0)).billable ≤ 0)
    (hrate : env.clientRateResp emp (strArg args.client_id) = Except.ok rate) :
    create_timesheet env args st =
      ((match env.createResp (createDto args emp rate.Rate) with
        | Except.ok r => Except.ok (ToolOutput.created r)
        | Except.error m => Except.error (HandlerError.thrown m)),
       st2, tr ++ [RemoteCall.getClientRate emp (strArg args.client_id),
                   RemoteCall.createTimesheet (createDto args emp rate.Rate)]) := by
  have hst2 : st2.employeeId = some emp := getEmployeeIdM_ok_state env st st2 emp tr hemp
  have hcache := getEmployeeIdM_cached env st2 emp hst2
  unfold create_timesheet
  rw [if_neg hreq]
  simp only [HandlerM.bind, getClientRateM, callRemote, HandlerM.pure, hemp, hcache, hrate,
    if_neg hpos]
  cases hcr : env.createResp (createDto args emp rate.Rate) with
  | ok r => simp [hcr]
  | error m => simp [hcr]

/-- Run of update_timesheet past the id check: the record is fetched, the
identity resolved, and the merged DTO submitted, with no validation of the
recomputed hours. -/
theorem update_ok_run (env : RemoteEnv) (args : ToolArgs) (st st2 : ClientState)
    (existing : TimesheetDetails) (emp : String) (tr : List RemoteCall)
    (h0 : ¬ intArg args.timesheet_id = 0)
    (hget : env.getTimesheetResp (intArg args.timesheet_id) = Except.ok existing)
    (hemp : getEmployeeIdM env st = (Except.ok emp, st2, tr)) :
    update_timesheet env args st =
      ((match env.updateResp (updateDto args existing (intArg args.timesheet_id) emp) with
        | Except.ok _ => Except.ok (ToolOutput.updated (intArg args.timesheet_id))
        | Except.error m => Except.error (HandlerError.thrown m)),
       st2,
       RemoteCall.getTimesheet (intArg args.timesheet_id) ::
         (tr ++ [RemoteCall.updateTimesheet
           (updateDto args existing (intArg args.timesheet_id) emp)])) := by
  unfold update_timesheet
  rw [if_neg h0]
  simp only [HandlerM.bind, callRemote, HandlerM.pure, hget, hemp]
  cases hur : env.updateResp (updateDto args existing (intArg args.timesheet_id) emp) with
  | ok u => simp [hur]
  | error m => simp [hur]

/-- The dispatcher routes the create tool name to the create handler. -/
theorem dispatch_create (env : RemoteEnv) (args : ToolArgs) :
    dispatch env "create_timesheet" args = create_timesheet env args := by
  rfl

/-- The dispatcher routes the update tool name to the update handler. -/
theorem dispatch_update (env : RemoteEnv) (args : ToolArgs) :
    dispatch env "update_timesheet" args = update_timesheet env args := by
  rfl

/-- The catch wrapper preserves the trace of the dispatched handler. -/
theorem handleToolCall_trace (env : RemoteEnv) (name : String) (args : ToolArgs)
    (st : ClientState) :
    (handleToolCall env name args st).2.2 = (dispatch env name args st).2.2 := by
  unfold handleToolCall
  rcases h : dispatch env name args st with ⟨r, st1, t⟩
  cases r with
  | ok out => rfl
  | error e => cases e <;> rfl

/-- Returning issues no call. -/
theorem rateFree_pure {α : Type} (a : α) : rateFree (HandlerM.pure a) := by
  intro st c hc
  simp [HandlerM.pure] at hc

/-- Throwing issues no call. -/
theorem rateFree_throwH {α : Type} (e : HandlerError) : rateFree (throwH (α := α) e) := by
  intro st c hc
  simp [throwH] at hc

/-- A primitive request other than the rate lookup is rate free. -/
theorem rateFree_callRemote {α : Type} (c0 : RemoteCall) (resp : Except String α)
    (h : isRateLookup c0 = false) : rateFree (callRemote c0 resp) := by
  intro st c hc
  simp [callRemote] at hc
  rw [hc]
  exact h

/-- A sequence of rate-free steps is rate free. -/
theorem rateFree_bind {α β : Type} (x : HandlerM α) (f : α → HandlerM β)
    (hx : rateFree x) (hf : ∀ a, rateFree (f a)) : rateFree (HandlerM.bind x f) := by
  intro st c hc
  unfold HandlerM.bind at hc
  cases hx0 : x st with
  | mk r rest =>
    cases rest with
    | mk st1 t1 =>
      rw [hx0] at hc
      cases r with
      | ok a =>
        simp at hc
        rcases hc with hc | hc
        · exact hx st c (by rw [hx0]; exact hc)
        · exact hf a st1 c hc
      | error e =>
        simp at hc
        exact hx st c (by rw [hx0]; exact hc)

/-- A branch of rate-free computations is rate free. -/
theorem rateFree_ite {α : Type} (p : Prop) [Decidable p] (x y : HandlerM α)
    (hx : rateFree x) (hy : rateFree y) : rateFree (if p then x else y) := by
  by_cases h : p
  · rw [if_pos h]; exact hx
  · rw [if_neg h]; exact hy

/-- The identity resolution is rate free. -/
theorem rateFree_getEmployeeIdM (env : RemoteEnv) : rateFree (getEmployeeIdM env) := by
  intro st c hc
  rw [getEmployeeIdM_trace env st c hc]
  rfl

/-- list_clients never looks up a rate. -/
theorem rateFree_list_clients (env : RemoteEnv) (args : ToolArgs) :
    rateFree (list_clients env args) := by
  unfold list_clients
  exact rateFree_bind _ _ (rateFree_callRemote _ _ rfl) (fun _ => rateFree_pure _)

/-- list_projects never looks up a rate. -/
theorem rateFree_list_projects (env : RemoteEnv) (args : ToolArgs) :
    rateFree (list_projects env args) := by
  unfold list_projects
  exact rateFree_ite _ _ _ (rateFree_throwH _)
    (rateFree_bind _ _ (rateFree_callRemote _ _ rfl) (fun _ => rateFree_pure _))

/-- list_categories never looks up a rate. -/
theorem rateFree_list_categories (env : RemoteEnv) :
    rateFree (list_categories env) := by
  unfold list_categories
  exact rateFree_bind _ _ (rateFree_callRemote _ _ rfl) (fun _ => rateFree_pure _)

/-- list_locations never looks up a rate. -/
theorem rateFree_list_locations (env : RemoteEnv) :
    rateFree (list_locations env) := by
  unfold list_locations
  exact rateFree_bind _ _ (rateFree_callRemote _ _ rfl) (fun _ => rateFree_pure _)

/-- get_timesheet_defaults never looks up a rate. -/
theorem rateFree_get_timesheet_defaults (env : RemoteEnv) (args : ToolArgs) :
    rateFree (get_timesheet_defaults env args) := by
  unfold get_timesheet_defaults getTimesheetDefaultsM
  exact rateFree_ite _ _ _ (rateFree_throwH _)
    (rateFree_bind _ _
      (rateFree_bind _ _ (rateFree_getEmployeeIdM env)
        (fun _ => rateFree_callRemote _ _ rfl))
      (fun _ => rateFree_pure _))

/-- list_timesheets never looks up a rate. -/
theorem rateFree_list_timesheets (env : RemoteEnv) (args : ToolArgs) :
    rateFree (list_timesheets env args) := by
  unfold list_timesheets listTimesheetsM
  exact rateFree_ite _ _ _ (rateFree_throwH _)
    (rateFree_bind _ _
      (rateFree_bind _ _ (rateFree_getEmployeeIdM env)
        (fun _ => rateFree_callRemote _ _ rfl))
      (fun _ => rateFree_pure _))

/-- get_timesheet never looks up a rate. -/
theorem rateFree_get_timesheet (env : RemoteEnv) (args : ToolArgs) :
    rateFree (get_timesheet env args) := by
  unfold get_timesheet
  exact rateFree_ite _ _ _ (rateFree_throwH _)
    (rateFree_bind _ _ (rateFree_callRemote _ _ rfl) (fun _ => rateFree_pure _))

/-- update_timesheet never looks up a rate. -/
theorem rateFree_update_timesheet (env : RemoteEnv) (args : ToolArgs) :
    rateFree (update_timesheet env args) := by
  unfold update_timesheet
  exact rateFree_ite _ _ _ (rateFree_throwH _)
    (rateFree_bind _ _ (rateFree_callRemote _ _ rfl)
      (fun existing => rateFree_bind _ _ (rateFree_getEmployeeIdM env)
        (fun empId => rateFree_bind _ _ (rateFree_callRemote _ _ rfl)
          (fun _ => rateFree_pure _))))

/-- delete_timesheet never looks up a rate. -/
theorem rateFree_delete_timesheet (env : RemoteEnv) (args : ToolArgs) :
    rateFree (delete_timesheet env args) := by
  unfold delete_timesheet
  exact rateFree_ite _ _ _ (rateFree_throwH _)
    (rateFree_bind _ _ (rateFree_callRemote _ _ rfl) (fun _ => rateFree_pure _))

/-- Every route other than the create tool is rate free. -/
theorem rateFree_dispatch (env : RemoteEnv) (name : String) (args : ToolArgs)
    (hname : name ≠ "create_timesheet") : rateFree (dispatch env name args) := by
  unfold dispatch
  split_ifs with h1 h2 h3 h4 h5 h6 h7 h8 h9
  · exact rateFree_list_clients env args
  · exact rateFree_list_projects env args
  · exact rateFree_list_categories env
  · exact rateFree_list_locations env
  · exact rateFree_get_timesheet_defaults env args
  · exact rateFree_list_timesheets env args
  · exact rateFree_get_timesheet env args
  · exact rateFree_update_timesheet env args
  · exact rateFree_delete_timesheet env args
  · exact rateFree_throwH _

/-- Evaluation of numComponent on a digit component. -/
theorem numComponent_eval (l : List Char) (n : Nat)
    (hd : isDigitList l = true) (hv : natFromChars l = n) :
    numComponent l = (n : ℚ) := by
  unfold numComponent
  rw [if_pos hd, hv]

/-- Evaluation of clockMinutes on a well-formed clock string. -/
theorem clockMinutes_eval (s : String) (a b : List Char) (rest : List (List Char))
    (x y : Nat) (hs : splitChar ':' s.data = a :: b :: rest)
    (ha : isDigitList a = true) (hb : isDigitList b = true)
    (hva : natFromChars a = x) (hvb : natFromChars b = y) :
    clockMinutes s = (x : ℚ) * 60 + (y : ℚ) := by
  unfold clockMinutes
  rw [hs]
  show numComponent a * 60 + numComponent b = (x : ℚ) * 60 + (y : ℚ)
  rw [numComponent_eval a x ha hva, numComponent_eval b y hb hvb]

/-- Nine in the morning is minute 540. -/
theorem clock_0900 : clockMinutes "09:00" = 540 := by
  rw [clockMinutes_eval "09:00" ['0', '9'] ['0', '0'] [] 9 0 (by decide) (by decide)
    (by decide) (by decide) (by decide)]
  norm_num

/-- Ten in the morning is minute 600. -/
theorem clock_1000 : clockMinutes "10:00" = 600 := by
  rw [clockMinutes_eval "10:00" ['1', '0'] ['0', '0'] [] 10 0 (by decide) (by decide)
    (by decide) (by decide) (by decide)]
  norm_num

/-- Five in the afternoon is minute 1020. -/
theorem clock_1700 : clockMinutes "17:00" = 1020 := by
  rw [clockMinutes_eval "17:00" ['1', '7'] ['0', '0'] [] 17 0 (by decide) (by decide)
    (by decide) (by decide) (by decide)]
  norm_num

/-- Six in the evening is minute 1080. -/
theorem clock_1800 : clockMinutes "18:00" = 1080 := by
  rw [clockMinutes_eval "18:00" ['1', '8'] ['0', '0'] [] 18 0 (by decide) (by decide)
    (by decide) (by decide) (by decide)]
  norm_num


/-- C1: for every valid time range with end after start and a break of at
least zero but shorter than the elapsed minutes, the create derivation
submits exactly the DTO assembled by createDto, whose billable hours equal
end minus start minus break, divided by sixty, and whose total hours
exceed the billable hours by break divided by sixty. -/
theorem C1_create_hours (env : RemoteEnv) (args : ToolArgs)
    (st st2 : ClientState) (emp : String) (tr : List RemoteCall) (rate : ClientRate)
    (hreq : ¬ (strArg args.client_id = "" ∨ strArg args.project_id = "" ∨
      strArg args.category_id = "" ∨ strArg args.date = "" ∨
      strArg args.start_time = "" ∨ strArg args.end_time = "" ∨
      strArg args.location_id = ""))
    (hemp : getEmployeeIdM env st = (Except.ok emp, st2, tr))
    (hrate : env.clientRateResp emp (strArg args.client_id) = Except.ok rate)
    (hb0 : 0 ≤ (args.break_minutes).getD 0)
    (hlt : (args.break_minutes).getD 0 <
      clockMinutes (strArg args.end_time) - clockMinutes (strArg args.start_time)) :
    submittedDto (create_timesheet env args st).2.2 = some (createDto args emp rate.Rate) ∧
    (createDto args emp rate.Rate).TimeBillable =
      (clockMinutes (strArg args.end_time) - clockMinutes (strArg args.start_time) -
        (args.break_minutes).getD 0) / 60 ∧
    (createDto args emp rate.Rate).TimeTotal - (createDto args emp rate.Rate).TimeBillable =
      (args.break_minutes).getD 0 / 60 := by
  have hpos : ¬ (calculateHours (strArg args.start_time) (strArg args.end_time)
      ((args.break_minutes).getD 0)).billable ≤ 0 := by
    show ¬ (clockMinutes (strArg args.end_time) - clockMinutes (strArg args.start_time) -
      (args.break_minutes).getD 0) / 60 ≤ 0
    have h1 : 0 < clockMinutes (strArg args.end_time) - clockMinutes (strArg args.start_time) -
        (args.break_minutes).getD 0 := by linarith
    exact not_le.2 (div_pos h1 (by norm_num))
  have run := create_ok_run env args st st2 emp tr rate hreq hemp hpos hrate
  refine ⟨?_, ?_, ?_⟩
  · rw [run]
    have hsh := getEmployeeIdM_trace_shape env st
    rw [hemp] at hsh
    rcases hsh with h | h <;> simp only [] at h <;> rw [h] <;> rfl
  · rfl
  · show ((calculateHours (strArg args.start_time) (strArg args.end_time)
      ((args.break_minutes).getD 0)).total + (args.break_minutes).getD 0 / 60) -
      (calculateHours (strArg args.start_time) (strArg args.end_time)
        ((args.break_minutes).getD 0)).billable = (args.break_minutes).getD 0 / 60
    have ht : (calculateHours (strArg args.start_time) (strArg args.end_time)
        ((args.break_minutes).getD 0)).total =
      (calculateHours (strArg args.start_time) (strArg args.end_time)
        ((args.break_minutes).getD 0)).billable := rfl
    rw [ht]
    ring

/-- C10: the hours helper returns a pair whose total and billable
components are equal, both being (end minus start minus break) over sixty;
with a nonzero break the total is never the gross elapsed time including
the break, so a gross total must be added by the caller. -/
theorem C10_hours_pair (s e : String) (b : ℚ) :
    (calculateHours s e b).total = (calculateHours s e b).billable ∧
    (calculateHours s e b).billable = (clockMinutes e - clockMinutes s - b) / 60 ∧
    (b ≠ 0 → (calculateHours s e b).total ≠ (clockMinutes e - clockMinutes s) / 60) := by
  refine ⟨rfl, rfl, ?_⟩
  intro hb h
  have h2 : (clockMinutes e - clockMinutes s - b) / 60 = (clockMinutes e - clockMinutes s) / 60 := h
  field_simp at h2
  exact hb (by linarith)

/-- C1 witness: creating with start 09:00, end 18:00 and a break of 60
minutes yields billable hours 8 and total hours 9. -/
theorem C1_witness :
    submittedDto (create_timesheet sampleEnv createArgsOk ClientState.fresh).2.2 =
      some (createDto createArgsOk "E1" sampleRate.Rate) ∧
    (createDto createArgsOk "E1" sampleRate.Rate).TimeBillable = 8 ∧
    (createDto createArgsOk "E1" sampleRate.Rate).TimeTotal = 9 := by
  have hemp := getEmployeeIdM_fresh sampleEnv ClientState.fresh "E1" rfl rfl
  have hmain := C1_create_hours sampleEnv createArgsOk ClientState.fresh
    { employeeId := some "E1" } "E1" [RemoteCall.getEmployeeId] sampleRate
    (by decide) hemp rfl (by norm_num [createArgsOk])
    (by show (60 : ℚ) < clockMinutes "18:00" - clockMinutes "09:00"
        rw [clock_1800, clock_0900]
        norm_num)
  obtain ⟨h1, h2, h3⟩ := hmain
  have h2e : (createDto createArgsOk "E1" sampleRate.Rate).TimeBillable = 8 := by
    rw [h2]
    show (clockMinutes "18:00" - clockMinutes "09:00" - 60) / 60 = 8
    rw [clock_1800, clock_0900]
    norm_num
  refine ⟨h1, h2e, ?_⟩
  have h3e : (createDto createArgsOk "E1" sampleRate.Rate).TimeTotal -
      (createDto createArgsOk "E1" sampleRate.Rate).TimeBillable = 1 := by
    rw [h3]
    show (60 : ℚ) / 60 = 1
    norm_num
  linarith

/-- C10 witness: the helper pair at 09:00 to 18:00 with a 60 minute break. -/
theorem C10_witness :
    ((60 : ℚ) ≠ 0) ∧
    ((calculateHours "09:00" "18:00" 60).total = (calculateHours "09:00" "18:00" 60).billable ∧
     (calculateHours "09:00" "18:00" 60).billable =
       (clockMinutes "18:00" - clockMinutes "09:00" - 60) / 60 ∧
     ((60 : ℚ) ≠ 0 →
       (calculateHours "09:00" "18:00" 60).total ≠
         (clockMinutes "18:00" - clockMinutes "09:00") / 60)) :=
  ⟨by norm_num, C10_hours_pair "09:00" "18:00" 60⟩

/-- C7: a create tool call with any required argument missing or empty is
rejected with the protocol validation error, with the client state
untouched and no remote call issued, so neither identity resolution nor
any other request precedes the rejection. -/
theorem C7_missing_required (env : RemoteEnv) (args : ToolArgs) (st : ClientState)
    (h : strArg args.client_id = "" ∨ strArg args.project_id = "" ∨
      strArg args.category_id = "" ∨ strArg args.date = "" ∨
      strArg args.start_time = "" ∨ strArg args.end_time = "" ∨
      strArg args.location_id = "") :
    handleToolCall env "create_timesheet" args st =
      (CallResult.protocolError invalidParams createRequiredMsg, st, []) := by
  unfold handleToolCall
  rw [dispatch_create, create_missing_run env args st h]

/-- C7 witness: a create call with no arguments at all is rejected with
the required-arguments error before any remote call. -/
theorem C7_witness :
    handleToolCall sampleEnv "create_timesheet" {} ClientState.fresh =
      (CallResult.protocolError invalidParams createRequiredMsg, ClientState.fresh, []) :=
  C7_missing_required sampleEnv {} ClientState.fresh (Or.inl rfl)

/-- Sequencing after a step known to succeed. -/
theorem bind_ok {α β : Type} (x : HandlerM α) (f : α → HandlerM β) (st st1 : ClientState)
    (a : α) (t1 : List RemoteCall) (hx : x st = (Except.ok a, st1, t1)) :
    HandlerM.bind x f st =
      ((f a st1).1, (f a st1).2.1, t1 ++ (f a st1).2.2) := by
  unfold HandlerM.bind
  rw [hx]

/-- Repeated identity calls from a cached state stay silent. -/
theorem employeeIdCalls_cached (env : RemoteEnv) (e : String) :
    ∀ (n : Nat) (st : ClientState), st.employeeId = some e →
      employeeIdCalls env n st = (Except.ok (List.replicate n e), st, []) := by
  intro n
  induction n with
  | zero => intro st h; rfl
  | succ n ih =>
    intro st h
    rw [show employeeIdCalls env (n + 1) = HandlerM.bind (getEmployeeIdM env)
      (fun e0 => HandlerM.bind (employeeIdCalls env n)
        (fun rest => HandlerM.pure (e0 :: rest))) from rfl]
    rw [bind_ok _ _ _ _ _ _ (getEmployeeIdM_cached env st e h)]
    rw [bind_ok _ _ _ _ _ _ (ih st h)]
    rfl

/-- C9: when the remote identity endpoint answers, a cached state answers
every call without remote requests, and any number of successive calls
from the fresh state issues exactly one remote identity request, stores
the result and returns it every time. -/
theorem C9_identity_cached (env : RemoteEnv) (e : String)
    (henv : env.employeeIdResp = Except.ok e) :
    (∀ st : ClientState, st.employeeId = some e →
      getEmployeeIdM env st = (Except.ok e, st, [])) ∧
    (∀ n : Nat, employeeIdCalls env (n + 1) ClientState.fresh =
      (Except.ok (List.replicate (n + 1) e), { employeeId := some e },
        [RemoteCall.getEmployeeId])) := by
  refine ⟨fun st h => getEmployeeIdM_cached env st e h, fun n => ?_⟩
  rw [show employeeIdCalls env (n + 1) = HandlerM.bind (getEmployeeIdM env)
    (fun e0 => HandlerM.bind (employeeIdCalls env n)
      (fun rest => HandlerM.pure (e0 :: rest))) from rfl]
  rw [bind_ok _ _ _ _ _ _ (getEmployeeIdM_fresh env ClientState.fresh e rfl henv)]
  rw [bind_ok _ _ _ _ _ _ (employeeIdCalls_cached env e n { employeeId := some e } rfl)]
  simp [HandlerM.pure, List.replicate_succ]

/-- C9 witness: three successive calls from the fresh state issue one
remote request and all return the resolved id. -/
theorem C9_witness :
    getEmployeeIdM sampleEnv { employeeId := some "E1" } =
      (Except.ok "E1", { employeeId := some "E1" }, []) ∧
    employeeIdCalls sampleEnv 3 ClientState.fresh =
      (Except.ok ["E1", "E1", "E1"], { employeeId := some "E1" },
        [RemoteCall.getEmployeeId]) := by
  have h := C9_identity_cached sampleEnv "E1" rfl
  refine ⟨h.1 { employeeId := some "E1" } rfl, ?_⟩
  have h2 := h.2 2
  simpa using h2

/-- The or-merge lets a non-empty override win. -/
theorem mergeStr_truthy (v d : String) (hv : v ≠ "") : mergeStr (some v) d = v := by
  show (if v = "" then d else v) = v
  rw [if_neg hv]

/-- The or-merge falls back on a missing or empty override. -/
theorem mergeStr_falsy (o : Option String) (d : String)
    (h : o = none ∨ o = some "") : mergeStr o d = d := by
  rcases h with h | h <;> rw [h] <;> rfl

/-- C2 amended: when the break consumes the elapsed time, the create
handler fails with the invalid-range protocol error naming the start, end
and break values, and its trace holds at most the employee identity
lookup, so no rate lookup and no submission happens; the update handler
however performs no such validation and submits the merged DTO, whose
billable hours are nonpositive, to the remote service. -/
theorem C2_invalid_range :
    (∀ (env : RemoteEnv) (args : ToolArgs) (st st2 : ClientState) (emp : String)
      (tr : List RemoteCall),
      ¬ (strArg args.client_id = "" ∨ strArg args.project_id = "" ∨
        strArg args.category_id = "" ∨ strArg args.date = "" ∨
        strArg args.start_time = "" ∨ strArg args.end_time = "" ∨
        strArg args.location_id = "") →
      getEmployeeIdM env st = (Except.ok emp, st2, tr) →
      clockMinutes (strArg args.end_time) - clockMinutes (strArg args.start_time) ≤
        (args.break_minutes).getD 0 →
      handleToolCall env "create_timesheet" args st =
        (CallResult.protocolError invalidParams
          (invalidRangeMsg ((args.break_minutes).getD 0) (strArg args.start_time)
            (strArg args.end_time)
            (calculateHours (strArg args.start_time) (strArg args.end_time)
              ((args.break_minutes).getD 0)).total),
         st2, tr) ∧
      (∀ c ∈ tr, c = RemoteCall.getEmployeeId)) ∧
    (∀ (env : RemoteEnv) (args : ToolArgs) (st st2 : ClientState)
      (existing : TimesheetDetails) (emp : String) (tr : List RemoteCall),
      ¬ intArg args.timesheet_id = 0 →
      env.getTimesheetResp (intArg args.timesheet_id) = Except.ok existing →
      getEmployeeIdM env st = (Except.ok emp, st2, tr) →
      clockMinutes (mergedEnd args existing) - clockMinutes (mergedStart args existing) ≤
        mergedBreak args existing →
      RemoteCall.updateTimesheet (updateDto args existing (intArg args.timesheet_id) emp) ∈
        (handleToolCall env "update_timesheet" args st).2.2 ∧
      (updateDto args existing (intArg args.timesheet_id) emp).TimeBillable ≤ 0) := by
  constructor
  · intro env args st st2 emp tr hreq hemp hw
    have hneg : (calculateHours (strArg args.start_time) (strArg args.end_time)
        ((args.break_minutes).getD 0)).billable ≤ 0 := by
      show (clockMinutes (strArg args.end_time) - clockMinutes (strArg args.start_time) -
        (args.break_minutes).getD 0) / 60 ≤ 0
      exact div_nonpos_iff.2 (Or.inr ⟨by linarith, by norm_num⟩)
    refine ⟨?_, ?_⟩
    · unfold handleToolCall
      rw [dispatch_create, create_invalid_run env args st st2 emp tr hreq hemp hneg]
    · intro c hc
      exact getEmployeeIdM_trace env st c (by rw [hemp]; exact hc)
  · intro env args st st2 existing emp tr h0 hget hemp hw
    refine ⟨?_, ?_⟩
    · rw [handleToolCall_trace, dispatch_update,
        update_ok_run env args st st2 existing emp tr h0 hget hemp]
      simp
    · show (clockMinutes (mergedEnd args existing) - clockMinutes (mergedStart args existing) -
        mergedBreak args existing) / 60 ≤ 0
      exact div_nonpos_iff.2 (Or.inr ⟨by linarith, by norm_num⟩)

/-- C2 counterexample: updating with start 09:00, end 10:00 and a 60
minute break is not rejected: the call succeeds, the merged DTO with zero
billable hours is submitted to the remote service. -/
theorem C2_counterexample :
    (handleToolCall sampleEnv "update_timesheet" updateArgsDegenerate ClientState.fresh).1 =
      CallResult.success (ToolOutput.updated 5) ∧
    RemoteCall.updateTimesheet (updateDto updateArgsDegenerate sampleExisting 5 "E1") ∈
      (handleToolCall sampleEnv "update_timesheet" updateArgsDegenerate ClientState.fresh).2.2 ∧
    (updateDto updateArgsDegenerate sampleExisting 5 "E1").TimeBillable = 0 := by
  have hemp := getEmployeeIdM_fresh sampleEnv ClientState.fresh "E1" rfl rfl
  have run := update_ok_run sampleEnv updateArgsDegenerate ClientState.fresh
    { employeeId := some "E1" } sampleExisting "E1" [RemoteCall.getEmployeeId]
    (by decide) rfl hemp
  refine ⟨?_, ?_, ?_⟩
  · unfold handleToolCall
    rw [dispatch_update, run]
    rfl
  · rw [handleToolCall_trace, dispatch_update, run]
    simp
    rfl
  · show (clockMinutes (mergedEnd updateArgsDegenerate sampleExisting) -
      clockMinutes (mergedStart updateArgsDegenerate sampleExisting) -
      mergedBreak updateArgsDegenerate sampleExisting) / 60 = 0
    have h1 : mergedEnd updateArgsDegenerate sampleExisting = "10:00" := rfl
    have h2 : mergedStart updateArgsDegenerate sampleExisting = "09:00" := rfl
    have h3 : mergedBreak updateArgsDegenerate sampleExisting = 60 := rfl
    rw [h1, h2, h3, clock_1000, clock_0900]
    norm_num

/-- C2 witness: the degenerate create call is rejected with the
invalid-range error after only the identity lookup, and the degenerate
update DTO carries nonpositive billable hours. -/
theorem C2_witness :
    handleToolCall sampleEnv "create_timesheet" createArgsDegenerate ClientState.fresh =
      (CallResult.protocolError invalidParams
        (invalidRangeMsg 60 "09:00" "10:00" (calculateHours "09:00" "10:00" 60).total),
       { employeeId := some "E1" }, [RemoteCall.getEmployeeId]) ∧
    (updateDto updateArgsDegenerate sampleExisting 5 "E1").TimeBillable ≤ 0 := by
  have h := C2_invalid_range
  have hemp := getEmployeeIdM_fresh sampleEnv ClientState.fresh "E1" rfl rfl
  constructor
  · have h1 := (h.1 sampleEnv createArgsDegenerate ClientState.fresh
      { employeeId := some "E1" } "E1" [RemoteCall.getEmployeeId]
      (by decide) hemp
      (by show clockMinutes "10:00" - clockMinutes "09:00" ≤ (60 : ℚ)
          rw [clock_1000, clock_0900]
          norm_num)).1
    exact h1
  · have h2 := (h.2 sampleEnv updateArgsDegenerate ClientState.fresh
      { employeeId := some "E1" } sampleExisting "E1" [RemoteCall.getEmployeeId]
      (by decide) rfl hemp
      (by show clockMinutes "10:00" - clockMinutes "09:00" ≤ (60 : ℚ)
          rw [clock_1000, clock_0900]
          norm_num)).2
    exact h2

/-- C3: the update merge treats the note by explicit presence: an
empty-string override clears the note of the submitted DTO while an absent
note key carries the stored note forward. -/
theorem C3_note_merge (env : RemoteEnv) (args : ToolArgs) (st st2 : ClientState)
    (existing : TimesheetDetails) (emp : String) (tr : List RemoteCall)
    (h0 : ¬ intArg args.timesheet_id = 0)
    (hget : env.getTimesheetResp (intArg args.timesheet_id) = Except.ok existing)
    (hemp : getEmployeeIdM env st = (Except.ok emp, st2, tr)) :
    submittedDto (handleToolCall env "update_timesheet" args st).2.2 =
      some (updateDto args existing (intArg args.timesheet_id) emp) ∧
    (args.note = some "" →
      (updateDto args existing (intArg args.timesheet_id) emp).Notes = some "") ∧
    (args.note = none →
      (updateDto args existing (intArg args.timesheet_id) emp).Notes = some existing.Note) := by
  refine ⟨?_, ?_, ?_⟩
  · rw [handleToolCall_trace, dispatch_update,
      update_ok_run env args st st2 existing emp tr h0 hget hemp]
    have hsh := getEmployeeIdM_trace_shape env st
    rw [hemp] at hsh
    rcases hsh with hsh | hsh <;> simp only [] at hsh <;> rw [hsh] <;> rfl
  · intro h
    show some ((args.note).getD existing.Note) = some ""
    rw [h]
    rfl
  · intro h
    show some ((args.note).getD existing.Note) = some existing.Note
    rw [h]
    rfl

/-- C3 witness: an explicit empty note override submits an empty note,
and an update without the note key preserves the stored note. -/
theorem C3_witness :
    submittedDto (handleToolCall sampleEnv "update_timesheet" updateArgsClearNote
      ClientState.fresh).2.2 =
      some (updateDto updateArgsClearNote sampleExisting 5 "E1") ∧
    (updateDto updateArgsClearNote sampleExisting 5 "E1").Notes = some "" ∧
    (updateDto updateArgsEmpty sampleExisting 5 "E1").Notes = some sampleExisting.Note := by
  have hemp := getEmployeeIdM_fresh sampleEnv ClientState.fresh "E1" rfl rfl
  have h1 := C3_note_merge sampleEnv updateArgsClearNote ClientState.fresh
    { employeeId := some "E1" } sampleExisting "E1" [RemoteCall.getEmployeeId]
    (by decide) rfl hemp
  have h2 := C3_note_merge sampleEnv updateArgsEmpty ClientState.fresh
    { employeeId := some "E1" } sampleExisting "E1" [RemoteCall.getEmployeeId]
    (by decide) rfl hemp
  exact ⟨h1.1, h1.2.1 rfl, h2.2.2 rfl⟩

/-- C4 counterexample: an explicitly present empty-string client override
does not win: the submitted DTO carries the existing client id, which is
not empty, so the field is not merged by explicit presence. -/
theorem C4_counterexample :
    updateArgsEmptyClient.client_id = some "" ∧
    submittedDto (handleToolCall sampleEnv "update_timesheet" updateArgsEmptyClient
      ClientState.fresh).2.2 =
      some (updateDto updateArgsEmptyClient sampleExisting 5 "E1") ∧
    (updateDto updateArgsEmptyClient sampleExisting 5 "E1").ClientID = "C1" ∧
    ("C1" : String) ≠ "" := by
  have hemp := getEmployeeIdM_fresh sampleEnv ClientState.fresh "E1" rfl rfl
  have run := update_ok_run sampleEnv updateArgsEmptyClient ClientState.fresh
    { employeeId := some "E1" } sampleExisting "E1" [RemoteCall.getEmployeeId]
    (by decide) rfl hemp
  refine ⟨rfl, ?_, rfl, by decide⟩
  rw [handleToolCall_trace, dispatch_update, run]
  rfl

/-- C4 amended: every optional string field other than note is merged by
truthiness, not explicit presence: a present non-empty override wins,
while an absent or explicitly empty override carries the existing value
forward (for the date the part before the T of the stored DateCreated, for
the times the first five characters of the stored clock strings). -/
theorem C4_merge_truthiness (args : ToolArgs) (existing : TimesheetDetails)
    (tid : Int) (emp : String) :
    ((∀ v, v ≠ "" → args.client_id = some v →
        (updateDto args existing tid emp).ClientID = v) ∧
      ((args.client_id = none ∨ args.client_id = some "") →
        (updateDto args existing tid emp).ClientID = existing.ClientID)) ∧
    ((∀ v, v ≠ "" → args.project_id = some v →
        (updateDto args existing tid emp).ProjectID = v) ∧
      ((args.project_id = none ∨ args.project_id = some "") →
        (updateDto args existing tid emp).ProjectID = existing.ProjectID)) ∧
    ((∀ v, v ≠ "" → args.category_id = some v →
        (updateDto args existing tid emp).CategoryID = v) ∧
      ((args.category_id = none ∨ args.category_id = some "") →
        (updateDto args existing tid emp).CategoryID = existing.CategoryID)) ∧
    ((∀ v, v ≠ "" → args.location_id = some v →
        (updateDto args existing tid emp).LocationID = v) ∧
      ((args.location_id = none ∨ args.location_id = some "") →
        (updateDto args existing tid emp).LocationID = existing.LocationID)) ∧
    ((∀ v, v ≠ "" → args.billable_id = some v →
        (updateDto args existing tid emp).BillableID = some v) ∧
      ((args.billable_id = none ∨ args.billable_id = some "") →
        (updateDto args existing tid emp).BillableID = some existing.BillableID)) ∧
    ((∀ v, v ≠ "" → args.date = some v → mergedDate args existing = v) ∧
      ((args.date = none ∨ args.date = some "") →
        mergedDate args existing = headSplit existing.DateCreated 'T')) ∧
    ((∀ v, v ≠ "" → args.start_time = some v → mergedStart args existing = v) ∧
      ((args.start_time = none ∨ args.start_time = some "") →
        mergedStart args existing = strTake existing.StartTime 5)) ∧
    ((∀ v, v ≠ "" → args.end_time = some v → mergedEnd args existing = v) ∧
      ((args.end_time = none ∨ args.end_time = some "") →
        mergedEnd args existing = strTake existing.EndTime 5)) ∧
    (updateDto args existing tid emp).DateCreated = mergedDate args existing ∧
    (updateDto args existing tid emp).TimeStart =
      formatDateTime (mergedDate args existing) (mergedStart args existing) ∧
    (updateDto args existing tid emp).TimeEnd =
      formatDateTime (mergedDate args existing) (mergedEnd args existing) := by
  refine ⟨⟨?_, ?_⟩, ⟨?_, ?_⟩, ⟨?_, ?_⟩, ⟨?_, ?_⟩, ⟨?_, ?_⟩, ⟨?_, ?_⟩, ⟨?_, ?_⟩, ⟨?_, ?_⟩,
    rfl, rfl, rfl⟩
  · intro v hv h
    show mergeStr args.client_id existing.ClientID = v
    rw [h]
    exact mergeStr_truthy v _ hv
  · intro h
    exact mergeStr_falsy args.client_id existing.ClientID h
  · intro v hv h
    show mergeStr args.project_id existing.ProjectID = v
    rw [h]
    exact mergeStr_truthy v _ hv
  · intro h
    exact mergeStr_falsy args.project_id existing.ProjectID h
  · intro v hv h
    show mergeStr args.category_id existing.CategoryID = v
    rw [h]
    exact mergeStr_truthy v _ hv
  · intro h
    exact mergeStr_falsy args.category_id existing.CategoryID h
  · intro v hv h
    show mergeStr args.location_id existing.LocationID = v
    rw [h]
    exact mergeStr_truthy v _ hv
  · intro h
    exact mergeStr_falsy args.location_id existing.LocationID h
  · intro v hv h
    show some (mergeStr args.billable_id existing.BillableID) = some v
    rw [h, mergeStr_truthy v _ hv]
  · intro h
    show some (mergeStr args.billable_id existing.BillableID) = some existing.BillableID
    rw [mergeStr_falsy args.billable_id existing.BillableID h]
  · intro v hv h
    unfold mergedDate
    rw [h]
    exact mergeStr_truthy v _ hv
  · intro h
    exact mergeStr_falsy args.date _ h
  · intro v hv h
    unfold mergedStart
    rw [h]
    exact mergeStr_truthy v _ hv
  · intro h
    exact mergeStr_falsy args.start_time _ h
  · intro v hv h
    unfold mergedEnd
    rw [h]
    exact mergeStr_truthy v _ hv
  · intro h
    exact mergeStr_falsy args.end_time _ h

/-- C4 witness: an empty client override keeps the stored client id and a
non-empty one wins. -/
theorem C4_witness :
    (updateDto updateArgsEmptyClient sampleExisting 5 "E1").ClientID =
      sampleExisting.ClientID ∧
    (updateDto { timesheet_id := some 5, client_id := some "C9" } sampleExisting 5
      "E1").ClientID = "C9" := by
  have h1 := C4_merge_truthiness updateArgsEmptyClient sampleExisting 5 "E1"
  have h2 := C4_merge_truthiness { timesheet_id := some 5, client_id := some "C9" }
    sampleExisting 5 "E1"
  exact ⟨h1.1.2 (Or.inr rfl), h2.1.1 "C9" (by decide) rfl⟩

/-- C5: an update with an empty override set submits a DTO whose billable
and total hours equal those of an internally consistent existing record,
and whose break equals the stored break converted from minutes to the
wire unit of hours. -/
theorem C5_empty_override (env : RemoteEnv) (st st2 : ClientState)
    (existing : TimesheetDetails) (emp : String) (tr : List RemoteCall) (tid : Int)
    (h0 : ¬ tid = 0)
    (hget : env.getTimesheetResp tid = Except.ok existing)
    (hemp : getEmployeeIdM env st = (Except.ok emp, st2, tr))
    (hbill : existing.TimeBillable =
      (clockMinutes (strTake existing.EndTime 5) - clockMinutes (strTake existing.StartTime 5) -
        existing.TimeLess) / 60)
    (htot : existing.TimeTotal = existing.TimeBillable + existing.TimeLess / 60) :
    submittedDto (handleToolCall env "update_timesheet" { timesheet_id := some tid } st).2.2 =
      some (updateDto { timesheet_id := some tid } existing tid emp) ∧
    (updateDto { timesheet_id := some tid } existing tid emp).TimeBillable =
      existing.TimeBillable ∧
    (updateDto { timesheet_id := some tid } existing tid emp).TimeTotal =
      existing.TimeTotal ∧
    (updateDto { timesheet_id := some tid } existing tid emp).TimeLess * 60 =
      existing.TimeLess := by
  refine ⟨?_, ?_, ?_, ?_⟩
  · rw [handleToolCall_trace, dispatch_update,
      update_ok_run env { timesheet_id := some tid } st st2 existing emp tr h0 hget hemp]
    have hsh := getEmployeeIdM_trace_shape env st
    rw [hemp] at hsh
    rcases hsh with hsh | hsh <;> simp only [] at hsh <;> rw [hsh] <;> rfl
  · show (clockMinutes (strTake existing.EndTime 5) - clockMinutes (strTake existing.StartTime 5) -
      existing.TimeLess) / 60 = existing.TimeBillable
    exact hbill.symm
  · show (clockMinutes (strTake existing.EndTime 5) - clockMinutes (strTake existing.StartTime 5) -
      existing.TimeLess) / 60 + existing.TimeLess / 60 = existing.TimeTotal
    rw [htot, hbill]
  · show existing.TimeLess / 60 * 60 = existing.TimeLess
    ring

/-- C5 witness: the empty update of the sample record reproduces billable
15/2, total 8 and the 30 minute break. -/
theorem C5_witness :
    submittedDto (handleToolCall sampleEnv "update_timesheet" updateArgsEmpty
      ClientState.fresh).2.2 = some (updateDto updateArgsEmpty sampleExisting 5 "E1") ∧
    (updateDto updateArgsEmpty sampleExisting 5 "E1").TimeBillable =
      sampleExisting.TimeBillable ∧
    (updateDto updateArgsEmpty sampleExisting 5 "E1").TimeTotal =
      sampleExisting.TimeTotal ∧
    (updateDto updateArgsEmpty sampleExisting 5 "E1").TimeLess * 60 =
      sampleExisting.TimeLess := by
  have hemp := getEmployeeIdM_fresh sampleEnv ClientState.fresh "E1" rfl rfl
  exact C5_empty_override sampleEnv ClientState.fresh { employeeId := some "E1" }
    sampleExisting "E1" [RemoteCall.getEmployeeId] 5 (by decide) rfl hemp
    (by show (15 / 2 : ℚ) = (clockMinutes "17:00" - clockMinutes "09:00" - 30) / 60
        rw [clock_1700, clock_0900]
        norm_num)
    (by show (8 : ℚ) = 15 / 2 + 30 / 60
        norm_num)

/-- C6: no tool other than create ever issues the remote rate lookup, the
update DTO always carries the sell price of the existing record, and a
validated create call does issue the rate lookup. -/
theorem C6_rate_frame :
    (∀ (env : RemoteEnv) (name : String) (args : ToolArgs) (st : ClientState),
      name ≠ "create_timesheet" →
      ∀ c ∈ (handleToolCall env name args st).2.2, isRateLookup c = false) ∧
    (∀ (args : ToolArgs) (existing : TimesheetDetails) (tid : Int) (emp : String),
      (updateDto args existing tid emp).SellPrice = existing.SellPrice) ∧
    (∀ (env : RemoteEnv) (args : ToolArgs) (st st2 : ClientState) (emp : String)
      (tr : List RemoteCall) (rate : ClientRate),
      ¬ (strArg args.client_id = "" ∨ strArg args.project_id = "" ∨
        strArg args.category_id = "" ∨ strArg args.date = "" ∨
        strArg args.start_time = "" ∨ strArg args.end_time = "" ∨
        strArg args.location_id = "") →
      getEmployeeIdM env st = (Except.ok emp, st2, tr) →
      ¬ (calculateHours (strArg args.start_time) (strArg args.end_time)
        ((args.break_minutes).getD 0)).billable ≤ 0 →
      env.clientRateResp emp (strArg args.client_id) = Except.ok rate →
      RemoteCall.getClientRate emp (strArg args.client_id) ∈
        (handleToolCall env "create_timesheet" args st).2.2) := by
  refine ⟨?_, fun args existing tid emp => rfl, ?_⟩
  · intro env name args st hname c hc
    rw [handleToolCall_trace] at hc
    exact rateFree_dispatch env name args hname st c hc
  · intro env args st st2 emp tr rate hreq hemp hpos hrate
    rw [handleToolCall_trace, dispatch_create,
      create_ok_run env args st st2 emp tr rate hreq hemp hpos hrate]
    simp

/-- C6 witness: the record fetch is not a rate lookup, the empty update
carries the sample sell price forward, and the sample create call looks
the rate up. -/
theorem C6_witness :
    isRateLookup (RemoteCall.getTimesheet 5) = false ∧
    (updateDto updateArgsEmpty sampleExisting 5 "E1").SellPrice =
      sampleExisting.SellPrice ∧
    RemoteCall.getClientRate "E1" "C1" ∈
      (handleToolCall sampleEnv "create_timesheet" createArgsOk ClientState.fresh).2.2 := by
  have h := C6_rate_frame
  have hemp := getEmployeeIdM_fresh sampleEnv ClientState.fresh "E1" rfl rfl
  refine ⟨?_, h.2.1 updateArgsEmpty sampleExisting 5 "E1", ?_⟩
  · apply h.1 sampleEnv "update_timesheet" updateArgsEmpty ClientState.fresh (by decide)
    rw [handleToolCall_trace, dispatch_update,
      update_ok_run sampleEnv updateArgsEmpty ClientState.fresh { employeeId := some "E1" }
        sampleExisting "E1" [RemoteCall.getEmployeeId] (by decide) rfl hemp]
    simp
    rfl
  · exact h.2.2 sampleEnv createArgsOk ClientState.fresh { employeeId := some "E1" } "E1"
      [RemoteCall.getEmployeeId] sampleRate (by decide) hemp
      (by show ¬ (clockMinutes "18:00" - clockMinutes "09:00" - 60) / 60 ≤ 0
          rw [clock_1800, clock_0900]
          norm_num)
      rfl

/-- C8: a non-ok response surfaces an error message carrying the numeric
status and the response body text (or the status text for an empty body),
an ok response with empty body is the empty structure rather than an
error, and a failing create submission is surfaced as a failed tool result
with exactly one submission attempt in the trace, the process answering
normally rather than crashing. -/
theorem C8_remote_error :
    (∀ resp : HttpResponse, resp.ok = false → resp.body ≠ "" →
      fetchModel resp = Except.error
        ("TimePRO API error (" ++ toString resp.status ++ "): " ++ resp.body)) ∧
    (∀ resp : HttpResponse, resp.ok = false → resp.body = "" →
      fetchModel resp = Except.error
        ("TimePRO API error (" ++ toString resp.status ++ "): " ++ resp.statusText)) ∧
    (∀ resp : HttpResponse, resp.ok = true → resp.body = "" →
      fetchModel resp = Except.ok FetchResult.emptyStructure) ∧
    (∀ (env : RemoteEnv) (args : ToolArgs) (st st2 : ClientState) (emp : String)
      (tr : List RemoteCall) (rate : ClientRate) (m : String),
      ¬ (strArg args.client_id = "" ∨ strArg args.project_id = "" ∨
        strArg args.category_id = "" ∨ strArg args.date = "" ∨
        strArg args.start_time = "" ∨ strArg args.end_time = "" ∨
        strArg args.location_id = "") →
      getEmployeeIdM env st = (Except.ok emp, st2, tr) →
      ¬ (calculateHours (strArg args.start_time) (strArg args.end_time)
        ((args.break_minutes).getD 0)).billable ≤ 0 →
      env.clientRateResp emp (strArg args.client_id) = Except.ok rate →
      env.createResp (createDto args emp rate.Rate) = Except.error m →
      (handleToolCall env "create_timesheet" args st).1 = CallResult.failed m ∧
      ((handleToolCall env "create_timesheet" args st).2.2.filter isCreateCall) =
        [RemoteCall.createTimesheet (createDto args emp rate.Rate)]) := by
  refine ⟨?_, ?_, ?_, ?_⟩
  · intro resp hok hbody
    unfold fetchModel
    rw [if_pos hok, if_neg hbody]
  · intro resp hok hbody
    unfold fetchModel
    rw [if_pos hok, if_pos hbody]
  · intro resp hok hbody
    have hnot : ¬ resp.ok = false := by rw [hok]; decide
    unfold fetchModel
    rw [if_neg hnot, if_pos hbody]
  · intro env args st st2 emp tr rate m hreq hemp hpos hrate hcreate
    have run := create_ok_run env args st st2 emp tr rate hreq hemp hpos hrate
    constructor
    · unfold handleToolCall
      rw [dispatch_create, run, hcreate]
    · rw [handleToolCall_trace, dispatch_create, run]
      have hsh := getEmployeeIdM_trace_shape env st
      rw [hemp] at hsh
      rcases hsh with hsh | hsh <;> simp only [] at hsh <;> rw [hsh] <;> rfl

/-- C8 witness: a 500 response with body boom surfaces both values, an
empty 200 body is the empty structure, and the failing create returns the
failed tool result after a single attempt. -/
theorem C8_witness :
    fetchModel { ok := false, status := 500, statusText := "Server Error", body := "boom" } =
      Except.error ("TimePRO API error (" ++ toString (500 : Nat) ++ "): " ++ "boom") ∧
    fetchModel { ok := true, status := 200, statusText := "OK", body := "" } =
      Except.ok FetchResult.emptyStructure ∧
    (handleToolCall sampleErrEnv "create_timesheet" createArgsOk ClientState.fresh).1 =
      CallResult.failed ("TimePRO API error (" ++ toString (500 : Nat) ++ "): " ++ "boom") ∧
    ((handleToolCall sampleErrEnv "create_timesheet" createArgsOk
        ClientState.fresh).2.2.filter isCreateCall) =
      [RemoteCall.createTimesheet (createDto createArgsOk "E1" sampleRate.Rate)] := by
  have h := C8_remote_error
  have hemp := getEmployeeIdM_fresh sampleErrEnv ClientState.fresh "E1" rfl rfl
  have h4 := h.2.2.2 sampleErrEnv createArgsOk ClientState.fresh { employeeId := some "E1" }
    "E1" [RemoteCall.getEmployeeId] sampleRate
    ("TimePRO API error (" ++ toString (500 : Nat) ++ "): " ++ "boom")
    (by decide) hemp
    (by show ¬ (clockMinutes "18:00" - clockMinutes "09:00" - 60) / 60 ≤ 0
        rw [clock_1800, clock_0900]
        norm_num)
    rfl rfl
  exact ⟨h.1 _ rfl (by decide), h.2.2.1 _ rfl rfl, h4.1, h4.2⟩

end TimePro
